import Mathlib

/-!
Verification development for the FinTech_Agent repository (`fin_ai.py`).

The Python source is shallowly embedded: Python values that flow through the
formatting pipeline become the inductive type `PyVal` (numbers are modelled as
rationals, strings as `String`, `None` as a constructor); fallible code
returns `Except String α` where the `String` is the Python exception message;
pandas tables become association lists; the yfinance provider becomes a
structure of ticker-indexed functions supplied as a stub.
-/

namespace FinAI

section
attribute [local semireducible] Rat.mul Rat.add Rat.sub Rat.inv

/-- A Python value as it appears in this program: a number (`int`/`float`,
modelled as `ℚ`), a string, or `None`. -/
inductive PyVal where
  | numV (q : ℚ)
  | strV (s : String)
  | noneV
deriving DecidableEq, Repr

/-- Python's `isinstance(num, (int, float))` test. -/
def PyVal.isNumeric : PyVal → Bool
  | .numV _ => true
  | _ => false

/-- Python truthiness: `0`/`0.0`, `""` and `None` are falsy. -/
def PyVal.truthy : PyVal → Bool
  | .numV q => q ≠ 0
  | .strV s => s ≠ ""
  | .noneV => false

/-- One decimal digit rendered as a character (callers pass `d < 10`). -/
def digitChar : ℕ → Char
  | 0 => '0' | 1 => '1' | 2 => '2' | 3 => '3' | 4 => '4'
  | 5 => '5' | 6 => '6' | 7 => '7' | 8 => '8' | _ => '9'

/-- Decimal digits of `n`, most significant first; `fuel` bounds recursion. -/
def natCharsAux : ℕ → ℕ → List Char
  | 0, _ => []
  | fuel + 1, n =>
    if n < 10 then [digitChar n]
    else natCharsAux fuel (n / 10) ++ [digitChar (n % 10)]

/-- Decimal rendering of a natural number. -/
def natStr (n : ℕ) : String := ⟨natCharsAux (n + 1) n⟩

/-- Floor of a rational as an integer (`q.num.fdiv q.den`). -/
def qfloor (q : ℚ) : ℤ := q.num.fdiv (q.den : ℤ)

/-- `q` scaled by 100 and rounded to an integer, half to even — the rounding
behind Python's `:.2f` / `:.2%` format specifiers. -/
def round2 (q : ℚ) : ℤ :=
  let x := q * 100
  let fl := qfloor x
  let r := x - (fl : ℚ)
  if r < 1 / 2 then fl
  else if 1 / 2 < (r : ℚ) then fl + 1
  else if fl % 2 = 0 then fl else fl + 1

/-- Python `f"{q:.2f}"`: fixed-point rendering with two decimals. -/
def fmt2 (q : ℚ) : String :=
  let n := round2 q
  let a := n.natAbs
  (if n < 0 then "-" else "") ++ natStr (a / 100) ++ "." ++
    (if a % 100 < 10 then "0" else "") ++ natStr (a % 100)

/-- `format_large_number` from `fin_ai.py`: numeric inputs are rendered as a
rupee amount with a `Trillion`/`Billion`/`Million` tier when at or above the
tier threshold; non-numeric inputs yield `"N/A"`. -/
def format_large_number (num : PyVal) : String :=
  match num with
  | .numV q =>
    if q ≥ 1000000000000 then "₹" ++ fmt2 (q / 1000000000000) ++ " Trillion"
    else if q ≥ 1000000000 then "₹" ++ fmt2 (q / 1000000000) ++ " Billion"
    else if q ≥ 1000000 then "₹" ++ fmt2 (q / 1000000) ++ " Million"
    else "₹" ++ fmt2 q
  | _ => "N/A"

/-- `s` ends with `t` (Boolean, via the character lists). -/
def endsWithStr (s t : String) : Bool := t.data.isSuffixOf s.data

/-- The output carries one of the three unit-tier suffixes. -/
def hasTierSuffix (s : String) : Bool :=
  endsWithStr s " Million" || endsWithStr s " Billion" || endsWithStr s " Trillion"

example : fmt2 (234 / 100) = "2.34" := by decide
example : format_large_number (.numV 1000000000) = "₹1.00 Billion" := by decide
example : format_large_number (.numV (-2000000)) = "₹-2000000.00" := by decide
example : format_large_number (.strV "N/A") = "N/A" := by decide
example : hasTierSuffix (format_large_number (.numV (-2000000))) = false := by decide

/-- One row of the one-year daily price history: the date (year, month) and
the `High`/`Low` columns. The day of month never matters (only the calendar
quarter does), so it is not carried. -/
structure DayRow where
  year : ℕ
  month : ℕ
  high : ℚ
  low : ℚ
deriving DecidableEq, Repr

/-- The yfinance provider, as a stub of ticker-indexed responses. `Except`
results model calls that may raise (network, parsing). `info` is the profile
mapping; `close1d` is the `Close` column of `history(period="1d")`;
`quarterly` is the quarterly statement table as label-indexed rows whose
values are listed most recent quarter first; `history1y` is the daily
High/Low history for `period="1y"`. -/
structure Provider where
  info : String → Except String (List (String × PyVal))
  close1d : String → Except String (List ℚ)
  quarterly : String → Except String (List (String × List PyVal))
  history1y : String → Except String (List DayRow)

/-- Python's `info.get(key, 'N/A')`. -/
def pyGet (info : List (String × PyVal)) (key : String) : PyVal :=
  match info.lookup key with
  | some v => v
  | none => .strV "N/A"

/-- pandas `.loc[label]` on a label-indexed table: raises `KeyError` when the
label is absent. -/
def locRow (table : List (String × List PyVal)) (label : String) :
    Except String (List PyVal) :=
  match table.lookup label with
  | some r => .ok r
  | none => .error ("KeyError: " ++ label)

/-- Python `l[0]`: raises `IndexError` on an empty list. -/
def item0 (l : List PyVal) : Except String PyVal :=
  match l with
  | [] => .error "IndexError: list index out of range"
  | v :: _ => .ok v

/-- `get_quarterly_financials` from `fin_ai.py`, with the provider's quarterly
statement table already fetched: if the table is non-empty, restrict to the
first 3 columns and read the rows labelled `Net Income`, `Total Revenue` and
`Operating Income` (raising `KeyError` when absent); otherwise return three
lists of three `"N/A"` sentinels. -/
def quarterlyTriple (qf : List (String × List PyVal)) :
    Except String (List PyVal × List PyVal × List PyVal) :=
  if ¬qf.isEmpty then do
    let latest_quarters := qf.map (fun r => (r.1, r.2.take 3))
    let net_profit ← locRow latest_quarters "Net Income"
    let sales ← locRow latest_quarters "Total Revenue"
    let operating_income ← locRow latest_quarters "Operating Income"
    .ok (net_profit, sales, operating_income)
  else
    .ok (List.replicate 3 (.strV "N/A"), List.replicate 3 (.strV "N/A"),
      List.replicate 3 (.strV "N/A"))

/-- `get_quarterly_financials` from `fin_ai.py` (fetch plus `quarterlyTriple`). -/
def get_quarterly_financials (p : Provider) (ticker : String) :
    Except String (List PyVal × List PyVal × List PyVal) := do
  quarterlyTriple (← p.quarterly ticker)

/-- Python `f"{v:.2%}"`: multiplies by 100, renders with 2 decimals and a
percent sign; raises `ValueError`/`TypeError` on non-numeric values. -/
def formatPercent2 (v : PyVal) : Except String String :=
  match v with
  | .numV q => .ok (fmt2 (q * 100) ++ "%")
  | .strV _ => .error "ValueError: Unknown format code for object of type str"
  | .noneV => .error "TypeError: unsupported format string passed to NoneType"

/-- The `Dividend Yield` entry of the `get_stock_info` dict literal:
`f"{dividend_yield:.2%}" if dividend_yield else "N/A"`. The condition is
Python truthiness, so the `'N/A'` default string is truthy and reaches the
percent formatting, which raises on strings. -/
def dividendYieldStr (dividend_yield : PyVal) : Except String String :=
  if dividend_yield.truthy then formatPercent2 dividend_yield else .ok "N/A"

/-- `get_stock_info` from `fin_ai.py`: reads the profile fields with
per-field `'N/A'` defaults, takes the last `Close` of the 1-day history (or
`"N/A"` when empty), fetches the quarterly triple, then builds the display
dict. The dict literal's entries are evaluated in order, so the dividend
yield formatting runs before the `[0]` indexings of the quarterly lists. -/
def get_stock_info (p : Provider) (ticker : String) :
    Except String (List (String × PyVal)) := do
  let info ← p.info ticker
  let name := pyGet info "longName"
  let market_cap := pyGet info "marketCap"
  let closes ← p.close1d ticker
  let current_price := match closes.getLast? with
    | some c => PyVal.numV c
    | none => PyVal.strV "N/A"
  let pe_ratio := pyGet info "forwardPE"
  let dividend_yield := pyGet info "dividendYield"
  let eps := pyGet info "trailingEps"
  let revenue := pyGet info "totalRevenue"
  let beta := pyGet info "beta"
  let sector := pyGet info "sector"
  let recommendation := pyGet info "recommendationKey"
  let fifty_two_week_high := pyGet info "fiftyTwoWeekHigh"
  let fifty_two_week_low := pyGet info "fiftyTwoWeekLow"
  let (net_profit, sales, operating_income) ← get_quarterly_financials p ticker
  let dy ← dividendYieldStr dividend_yield
  let np0 ← item0 net_profit
  let sl0 ← item0 sales
  let oi0 ← item0 operating_income
  .ok [("Company Name", name),
       ("Ticker", .strV ticker),
       ("Current Price", .strV (format_large_number current_price)),
       ("Market Cap", .strV (format_large_number market_cap)),
       ("PE Ratio", pe_ratio),
       ("Dividend Yield", .strV dy),
       ("EPS", .strV (format_large_number eps)),
       ("Revenue", .strV (format_large_number revenue)),
       ("Net Profit (Last Quarter)", .strV (format_large_number np0)),
       ("Sales (Last Quarter)", .strV (format_large_number sl0)),
       ("Operating Income (Last Quarter)", .strV (format_large_number oi0)),
       ("Beta", beta),
       ("52-Week High", .strV (format_large_number fifty_two_week_high)),
       ("52-Week Low", .strV (format_large_number fifty_two_week_low)),
       ("Sector", sector),
       ("Recommendation", recommendation)]

/-- pandas `index.to_period('Q')`, linearised: quarters compare
chronologically as naturals (months are 1-based). -/
def quarterKey (year month : ℕ) : ℕ := year * 4 + (month - 1) / 3

/-- `calculate_quarterly_averages` from `fin_ai.py`:
`hist.groupby('Quarter')[['High','Low']].mean()` — group the daily rows by
calendar quarter (pandas sorts group keys ascending) and take the column-wise
mean of `High` and `Low` in each group. -/
def calculate_quarterly_averages (hist : List DayRow) : List (ℕ × ℚ × ℚ) :=
  let ks := ((hist.map (fun r => quarterKey r.year r.month)).dedup).insertionSort (· ≤ ·)
  ks.map (fun k =>
    let g := hist.filter (fun r => quarterKey r.year r.month == k)
    (k, (g.map DayRow.high).sum / (g.length : ℚ), (g.map DayRow.low).sum / (g.length : ℚ)))

/-- Python `f"{v:.2f}"`: fixed-point with 2 decimals; raises on non-numeric
values (this is the bar-annotation formatting in `plot_visualizations`). -/
def formatFixed2 (v : PyVal) : Except String String :=
  match v with
  | .numV q => .ok (fmt2 q)
  | .strV _ => .error "ValueError: Unknown format code f for object of type str"
  | .noneV => .error "TypeError: unsupported format string passed to NoneType"

/-- The in-memory chart: three stacked panels, modelled by the data drawn
into them (bar annotations carry the `₹`-prefixed formatted values). -/
structure ChartImage where
  ticker : String
  npAnn : List String
  slAnn : List String
  series : List (ℕ × ℚ × ℚ)
deriving DecidableEq, Repr

/-- `plot_visualizations` from `fin_ai.py`: annotates each net-profit bar and
each sales bar with `f"₹{v:.2f}"` (raising when a value is non-numeric, e.g.
the `"N/A"` sentinel) and draws the High/Low series. -/
def plot_visualizations (ticker : String) (net_profit sales : List PyVal)
    (quarterly_high_low : List (ℕ × ℚ × ℚ)) : Except String ChartImage := do
  let npAnn ← net_profit.mapM (fun v => do .ok ("₹" ++ (← formatFixed2 v)))
  let slAnn ← sales.mapM (fun v => do .ok ("₹" ++ (← formatFixed2 v)))
  .ok ⟨ticker, npAnn, slAnn, quarterly_high_low⟩

/-- Python `str(v)` as used for the dict values in the markdown block (a
rendering model; only the string case is ever load-bearing for the claims). -/
def pyStr (v : PyVal) : String :=
  match v with
  | .strV s => s
  | .numV q => fmt2 q
  | .noneV => "None"

/-- The `"\n\n".join(f"**{key}**: {value}" ...)` markdown block of `main`. -/
def stockInfoMd (si : List (String × PyVal)) : String :=
  String.intercalate "\n\n" (si.map (fun kv => "**" ++ kv.1 ++ "**: " ++ pyStr kv.2))

/-- The body of `main`'s `try` block: the full request pipeline for an
already exchange-qualified ticker. -/
def mainPipeline (p : Provider) (ticker : String) :
    Except String (String × ChartImage) := do
  let stock_info ← get_stock_info p ticker
  let (net_profit, sales, _) ← get_quarterly_financials p ticker
  let hist ← p.history1y ticker
  let quarterly_high_low := calculate_quarterly_averages hist
  let visual_image ← plot_visualizations ticker net_profit sales quarterly_high_low
  .ok (stockInfoMd stock_info, visual_image)

/-- `main` from `fin_ai.py`: qualify the bare symbol with the `.NS` exchange
suffix, run the pipeline, and catch any exception into the single error
string (with no image). -/
def main (ticker_symbol : String) (p : Provider) : String × Option ChartImage :=
  let ticker := ticker_symbol ++ ".NS"
  match mainPipeline p ticker with
  | .ok (md, img) => (md, some img)
  | .error e => ("Error fetching data for " ++ ticker ++ ": " ++ e, none)

/-- `load_stocks` from `fin_ai.py`: the filesystem is `none` when
`nse_stocks.csv` is absent (`FileNotFoundError`, caught, yielding `[]`) and
`some table` when present, where `table` maps column names to columns;
reading a missing `SYMBOL` column raises `KeyError` (not caught). -/
def load_stocks (fs : Option (List (String × List String))) :
    Except String (List String) :=
  match fs with
  | none => .ok []
  | some table =>
    match table.lookup "SYMBOL" with
    | some col => .ok col
    | none => .error "KeyError: SYMBOL"

end

section
attribute [local semireducible] Rat.mul Rat.add Rat.sub Rat.inv

lemma digitChar_ne_space (d : ℕ) : digitChar d ≠ ' ' := by
  match d with
  | 0 | 1 | 2 | 3 | 4 | 5 | 6 | 7 | 8 => decide
  | n + 9 => simp [digitChar]

lemma space_not_mem_natCharsAux (fuel n : ℕ) : ' ' ∉ natCharsAux fuel n := by
  induction fuel generalizing n with
  | zero => simp [natCharsAux]
  | succ fuel ih =>
    unfold natCharsAux
    split
    · intro h
      rw [List.mem_singleton] at h
      exact digitChar_ne_space _ h.symm
    · intro h
      rcases List.mem_append.mp h with h | h
      · exact ih _ h
      · rw [List.mem_singleton] at h
        exact digitChar_ne_space _ h.symm

lemma space_not_mem_natStr (n : ℕ) : ' ' ∉ (natStr n).data :=
  space_not_mem_natCharsAux _ n

lemma space_not_mem_fmt2 (q : ℚ) : ' ' ∉ (fmt2 q).data := by
  unfold fmt2
  simp only [String.data_append, List.mem_append]
  rintro ((((h | h) | h) | h) | h)
  · revert h; split <;> decide
  · exact space_not_mem_natStr _ h
  · revert h; decide
  · revert h; split <;> decide
  · exact space_not_mem_natStr _ h

lemma space_not_mem_rupee_fmt2 (q : ℚ) : ' ' ∉ ("₹" ++ fmt2 q).data := by
  simp only [String.data_append, List.mem_append]
  rintro (h | h)
  · revert h; decide
  · exact space_not_mem_fmt2 q h

lemma endsWithStr_append (s t : String) : endsWithStr (s ++ t) t = true := by
  simp [endsWithStr, List.isSuffixOf_iff_suffix]

lemma endsWithStr_eq_false_of_space (s t : String) (hm : ' ' ∈ t.data)
    (hn : ' ' ∉ s.data) : endsWithStr s t = false := by
  rw [Bool.eq_false_iff]
  intro h
  exact hn ((List.isSuffixOf_iff_suffix.mp h).sublist.subset hm)

lemma hasTierSuffix_eq_false (s : String) (hn : ' ' ∉ s.data) :
    hasTierSuffix s = false := by
  unfold hasTierSuffix
  rw [endsWithStr_eq_false_of_space s " Million" (by decide) hn,
    endsWithStr_eq_false_of_space s " Billion" (by decide) hn,
    endsWithStr_eq_false_of_space s " Trillion" (by decide) hn]
  rfl

/-- C1: for every numeric input `q`, the Number Formatter returns the
currency symbol followed by `q` divided by the tier divisor rendered to 2
decimals and the `" Trillion"` suffix when `q ≥ 10^12`, the `" Billion"`
suffix when `10^9 ≤ q < 10^12`, the `" Million"` suffix when
`10^6 ≤ q < 10^9`, and no tier suffix when `q < 10^6`; boundaries take the
higher tier because the branch tests are inclusive. -/
theorem number_formatter_tiers (q : ℚ) :
    (1000000000000 ≤ q →
      format_large_number (.numV q) = "₹" ++ fmt2 (q / 1000000000000) ++ " Trillion" ∧
      endsWithStr (format_large_number (.numV q)) " Trillion" = true) ∧
    (1000000000 ≤ q → q < 1000000000000 →
      format_large_number (.numV q) = "₹" ++ fmt2 (q / 1000000000) ++ " Billion" ∧
      endsWithStr (format_large_number (.numV q)) " Billion" = true) ∧
    (1000000 ≤ q → q < 1000000000 →
      format_large_number (.numV q) = "₹" ++ fmt2 (q / 1000000) ++ " Million" ∧
      endsWithStr (format_large_number (.numV q)) " Million" = true) ∧
    (q < 1000000 →
      format_large_number (.numV q) = "₹" ++ fmt2 q ∧
      hasTierSuffix (format_large_number (.numV q)) = false) := by
  refine ⟨fun h1 => ?_, fun h1 h2 => ?_, fun h1 h2 => ?_, fun h1 => ?_⟩
  · rw [format_large_number, if_pos (by exact_mod_cast h1)]
    exact ⟨rfl, endsWithStr_append _ _⟩
  · rw [format_large_number, if_neg (not_le.mpr h2), if_pos (by exact_mod_cast h1)]
    exact ⟨rfl, endsWithStr_append _ _⟩
  · rw [format_large_number, if_neg (not_le.mpr (h2.trans (by norm_num))),
      if_neg (not_le.mpr h2), if_pos (by exact_mod_cast h1)]
    exact ⟨rfl, endsWithStr_append _ _⟩
  · rw [format_large_number, if_neg (not_le.mpr (h1.trans (by norm_num))),
      if_neg (not_le.mpr (h1.trans (by norm_num))), if_neg (not_le.mpr h1)]
    exact ⟨rfl, hasTierSuffix_eq_false _ (space_not_mem_rupee_fmt2 q)⟩

/-- C1 witness: the boundary value `10^9` takes the `" Billion"` tier. -/
theorem number_formatter_tiers_witness :
    format_large_number (.numV 1000000000) =
      "₹" ++ fmt2 (1000000000 / 1000000000) ++ " Billion" ∧
    endsWithStr (format_large_number (.numV 1000000000)) " Billion" = true :=
  (number_formatter_tiers 1000000000).2.1 (by norm_num) (by norm_num)

/-- C6 counterexample: `-2000000` has magnitude at or above one million, yet
the Number Formatter output carries no unit tier suffix (the branch tests
compare the signed value, not the magnitude). -/
theorem magnitude_tier_counterexample :
    (1000000 : ℚ) ≤ |(-2000000 : ℚ)| ∧
    hasTierSuffix (format_large_number (.numV (-2000000))) = false := by
  constructor
  · norm_num
  · decide

/-- C6 amended: for every numeric input whose signed value is at or above one
million, the Number Formatter output carries an explicit unit tier suffix. -/
theorem signed_tier_suffix (q : ℚ) (h : 1000000 ≤ q) :
    hasTierSuffix (format_large_number (.numV q)) = true := by
  rw [format_large_number]
  rcases le_or_lt 1000000000000 q with h12 | h12
  · rw [if_pos (by exact_mod_cast h12)]
    unfold hasTierSuffix
    rw [endsWithStr_append]
    simp
  · rw [if_neg (not_le.mpr h12)]
    rcases le_or_lt 1000000000 q with h9 | h9
    · rw [if_pos (by exact_mod_cast h9)]
      unfold hasTierSuffix
      rw [endsWithStr_append]
      simp
    · rw [if_neg (not_le.mpr h9), if_pos (by exact_mod_cast h)]
      unfold hasTierSuffix
      rw [endsWithStr_append]
      simp

/-- C6 amended witness: the boundary value `10^6` carries a tier suffix. -/
theorem signed_tier_suffix_witness :
    hasTierSuffix (format_large_number (.numV 1000000)) = true :=
  signed_tier_suffix 1000000 (by norm_num)

/-- C8: for every non-numeric input, including the `"N/A"` sentinel string,
the Number Formatter returns exactly `"N/A"`. -/
theorem non_numeric_formats_na (v : PyVal) (h : v.isNumeric = false) :
    format_large_number v = "N/A" := by
  cases v with
  | numV q => simp [PyVal.isNumeric] at h
  | strV s => rfl
  | noneV => rfl

/-- C8 witness: the `"N/A"` sentinel itself is non-numeric and formats to
`"N/A"`. -/
theorem non_numeric_formats_na_witness :
    (PyVal.strV "N/A").isNumeric = false ∧
    format_large_number (.strV "N/A") = "N/A" :=
  ⟨rfl, non_numeric_formats_na (.strV "N/A") rfl⟩

/-- C9: when the local symbol catalog file is absent, the Symbol Catalog
Loader returns the empty sequence and raises nothing. -/
theorem load_stocks_missing_file : load_stocks none = .ok [] := rfl

lemma except_bind_ok {α β : Type} {x : Except String α} {f : α → Except String β}
    {b : β} (h : x >>= f = .ok b) : ∃ a, x = .ok a ∧ f a = .ok b := by
  cases x with
  | error e => simp [Bind.bind, Except.bind] at h
  | ok a => exact ⟨a, rfl, by simpa [Bind.bind, Except.bind] using h⟩

instance {ε α : Type} [DecidableEq ε] [DecidableEq α] :
    DecidableEq (Except ε α) := fun x y =>
  match x, y with
  | .ok a, .ok b =>
    match decEq a b with
    | isTrue h => isTrue (h ▸ rfl)
    | isFalse h => isFalse fun hc => h (Except.ok.inj hc)
  | .error e, .error f =>
    match decEq e f with
    | isTrue h => isTrue (h ▸ rfl)
    | isFalse h => isFalse fun hc => h (Except.error.inj hc)
  | .ok _, .error _ => isFalse fun hc => Except.noConfusion hc
  | .error _, .ok _ => isFalse fun hc => Except.noConfusion hc

lemma error_message_shape (s e : String) :
    "Error fetching data for " ++ (s ++ ".NS") ++ ": " ++ e =
      "Error fetching data for " ++ s ++ ".NS: " ++ e := by
  apply String.ext
  simp only [String.data_append, List.append_assoc]
  rfl

lemma lookup_map_take (qf : List (String × List PyVal)) (k : String) :
    (qf.map (fun r => (r.1, r.2.take 3))).lookup k =
      (qf.lookup k).map (fun l => l.take 3) := by
  induction qf with
  | nil => rfl
  | cons r t ih =>
    simp only [List.map_cons, List.lookup]
    split <;> simp [ih]

/-- C5: if the quarterly statement table is empty, `get_quarterly_financials`
returns three sequences of three `"N/A"` sentinels; if it is non-empty and
the rows `Net Income`, `Total Revenue` and `Operating Income` all exist, it
returns those rows restricted to the first 3 columns; it raises exactly when
the table is non-empty and one of the named rows is absent. -/
theorem quarterly_financials_cases (qf : List (String × List PyVal)) :
    (qf = [] →
      quarterlyTriple qf =
        .ok (List.replicate 3 (.strV "N/A"), List.replicate 3 (.strV "N/A"),
          List.replicate 3 (.strV "N/A"))) ∧
    (∀ np sl oi, qf ≠ [] →
      qf.lookup "Net Income" = some np →
      qf.lookup "Total Revenue" = some sl →
      qf.lookup "Operating Income" = some oi →
      quarterlyTriple qf = .ok (np.take 3, sl.take 3, oi.take 3)) ∧
    ((∃ e, quarterlyTriple qf = .error e) ↔
      qf ≠ [] ∧ (qf.lookup "Net Income" = none ∨
        qf.lookup "Total Revenue" = none ∨
        qf.lookup "Operating Income" = none)) := by
  refine ⟨?_, ?_, ?_⟩
  · rintro rfl
    rfl
  · intro np sl oi hne hnp hsl hoi
    rw [quarterlyTriple, if_pos (by simpa [List.isEmpty_iff] using hne)]
    simp [locRow, lookup_map_take, hnp, hsl, hoi, Bind.bind, Except.bind]
  · constructor
    · rintro ⟨e, he⟩
      rcases eq_or_ne qf [] with rfl | hne
      · simp [quarterlyTriple] at he
      · refine ⟨hne, ?_⟩
        by_contra hc
        push_neg at hc
        obtain ⟨h1, h2, h3⟩ := hc
        obtain ⟨np, hnp⟩ := Option.ne_none_iff_exists'.mp h1
        obtain ⟨sl, hsl⟩ := Option.ne_none_iff_exists'.mp h2
        obtain ⟨oi, hoi⟩ := Option.ne_none_iff_exists'.mp h3
        rw [quarterlyTriple, if_pos (by simpa [List.isEmpty_iff] using hne)] at he
        simp [locRow, lookup_map_take, hnp, hsl, hoi, Bind.bind, Except.bind] at he
    · rintro ⟨hne, hcase⟩
      rw [quarterlyTriple, if_pos (by simpa [List.isEmpty_iff] using hne)]
      cases hnp : qf.lookup "Net Income" with
      | none =>
        refine ⟨"KeyError: " ++ "Net Income", ?_⟩
        simp [locRow, lookup_map_take, hnp, Bind.bind, Except.bind]
      | some np =>
        cases hsl : qf.lookup "Total Revenue" with
        | none =>
          refine ⟨"KeyError: " ++ "Total Revenue", ?_⟩
          simp [locRow, lookup_map_take, hnp, hsl, Bind.bind, Except.bind]
        | some sl =>
          cases hoi : qf.lookup "Operating Income" with
          | none =>
            refine ⟨"KeyError: " ++ "Operating Income", ?_⟩
            simp [locRow, lookup_map_take, hnp, hsl, hoi, Bind.bind, Except.bind]
          | some oi => simp [hnp, hsl, hoi] at hcase

/-- C5 witness: a non-empty table with all three named rows yields the rows
cut to their first 3 columns. -/
theorem quarterly_financials_cases_witness :
    quarterlyTriple
      [("Net Income", [PyVal.numV 1, .numV 2, .numV 3, .numV 4]),
       ("Total Revenue", [.numV 5]), ("Operating Income", [])] =
      .ok ([PyVal.numV 1, .numV 2, .numV 3], [PyVal.numV 5], ([] : List PyVal)) :=
  (quarterly_financials_cases _).2.1
    [PyVal.numV 1, .numV 2, .numV 3, .numV 4] [.numV 5] [] (by simp) rfl rfl rfl

/-- Stub provider for a symbol whose profile is reachable but carries none of
the optional fields: every `info.get` falls back to the `'N/A'` default. -/
def sentinelInfoProvider : Provider where
  info _ := .ok []
  close1d _ := .ok [100]
  quarterly _ := .ok []
  history1y _ := .ok []

/-- C2 (evaluation at the failing input): a present, non-zero numeric
dividend yield of 0.0234 renders as `"2.34%"`, but the `"N/A"` sentinel is a
truthy Python string, reaches the `:.2%` formatting, and raises `ValueError`
instead of rendering `"N/A"` — `get_stock_info` propagates the exception. -/
theorem dividend_yield_sentinel_behavior :
    dividendYieldStr (.numV (234 / 10000)) = .ok "2.34%" ∧
    dividendYieldStr (.strV "N/A") =
      .error "ValueError: Unknown format code for object of type str" ∧
    get_stock_info sentinelInfoProvider "RELIANCE.NS" =
      .error "ValueError: Unknown format code for object of type str" := by
  refine ⟨by decide, rfl, by decide⟩

/-- Stub provider returning an empty quarterly statement table, with an
otherwise healthy profile (non-zero dividend yield, one day of prices). -/
def emptyQuarterlyProvider : Provider where
  info _ := .ok [("dividendYield", .numV (234 / 10000))]
  close1d _ := .ok [100]
  quarterly _ := .ok []
  history1y _ := .ok []

/-- C3 (evaluation at the failing input): with an empty quarterly statement
table, the `"N/A"` sentinels reach the chart annotation `f"₹{v:.2f}"`, which
raises on strings, so the Request Handler returns the error string and no
image rather than the text block the claim describes. -/
theorem empty_quarterly_table_errors :
    main "RELIANCE" emptyQuarterlyProvider =
      ("Error fetching data for RELIANCE.NS: ValueError: Unknown format code f for object of type str",
        none) := by
  decide

/-- The 16 field names of the StockInfo mapping, in construction order. -/
def stockInfoKeys : List String :=
  ["Company Name", "Ticker", "Current Price", "Market Cap", "PE Ratio",
   "Dividend Yield", "EPS", "Revenue", "Net Profit (Last Quarter)",
   "Sales (Last Quarter)", "Operating Income (Last Quarter)", "Beta",
   "52-Week High", "52-Week Low", "Sector", "Recommendation"]

/-- C10: whenever `get_stock_info` returns without raising, the returned
mapping has exactly the 16 fixed keys, in construction order, regardless of
the provider's responses. -/
theorem stock_info_keys_fixed (p : Provider) (t : String)
    (m : List (String × PyVal)) (h : get_stock_info p t = .ok m) :
    m.map Prod.fst = stockInfoKeys := by
  unfold get_stock_info at h
  obtain ⟨info, hinfo, h⟩ := except_bind_ok h
  obtain ⟨closes, hcloses, h⟩ := except_bind_ok h
  obtain ⟨triple, htriple, h⟩ := except_bind_ok h
  obtain ⟨np, sl, oi⟩ := triple
  obtain ⟨dy, hdy, h⟩ := except_bind_ok h
  obtain ⟨np0, hnp0, h⟩ := except_bind_ok h
  obtain ⟨sl0, hsl0, h⟩ := except_bind_ok h
  obtain ⟨oi0, hoi0, h⟩ := except_bind_ok h
  cases h
  rfl

/-- Stub provider on which `get_stock_info` succeeds: zero dividend yield
(falsy, so it renders `"N/A"`), one close price, empty quarterly table. -/
def okStubProvider : Provider where
  info _ := .ok [("dividendYield", .numV 0)]
  close1d _ := .ok [100]
  quarterly _ := .ok []
  history1y _ := .ok []

/-- The StockInfo mapping `get_stock_info` produces on `okStubProvider`. -/
def okStubStockInfo : List (String × PyVal) :=
  [("Company Name", .strV "N/A"), ("Ticker", .strV "X.NS"),
   ("Current Price", .strV "₹100.00"), ("Market Cap", .strV "N/A"),
   ("PE Ratio", .strV "N/A"), ("Dividend Yield", .strV "N/A"),
   ("EPS", .strV "N/A"), ("Revenue", .strV "N/A"),
   ("Net Profit (Last Quarter)", .strV "N/A"),
   ("Sales (Last Quarter)", .strV "N/A"),
   ("Operating Income (Last Quarter)", .strV "N/A"), ("Beta", .strV "N/A"),
   ("52-Week High", .strV "N/A"), ("52-Week Low", .strV "N/A"),
   ("Sector", .strV "N/A"), ("Recommendation", .strV "N/A")]

/-- C10 witness: on a concrete provider stub the success path is reached and
the keys are the 16 fixed ones. -/
theorem stock_info_keys_fixed_witness :
    okStubStockInfo.map Prod.fst = stockInfoKeys :=
  stock_info_keys_fixed okStubProvider "X.NS" okStubStockInfo (by decide)

/-- C4: the Request Handler qualifies the bare symbol with `.NS`, and (i) on
any pipeline exception returns exactly the pair
`("Error fetching data for " ++ s ++ ".NS: " ++ message, no image)`, (ii) on
success returns the text together with an image, (iii) the image is absent
exactly when the pipeline raised (no partial results), and (iv) the result
depends on the provider only through its responses for the qualified ticker
`s ++ ".NS"`. -/
theorem request_handler_error_path (s : String) (p : Provider) :
    (∀ e, mainPipeline p (s ++ ".NS") = .error e →
      main s p = ("Error fetching data for " ++ s ++ ".NS: " ++ e, none)) ∧
    (∀ r, mainPipeline p (s ++ ".NS") = .ok r →
      main s p = (r.1, some r.2)) ∧
    ((main s p).2 = none ↔ ∃ e, mainPipeline p (s ++ ".NS") = .error e) ∧
    (∀ p' : Provider,
      p'.info (s ++ ".NS") = p.info (s ++ ".NS") →
      p'.close1d (s ++ ".NS") = p.close1d (s ++ ".NS") →
      p'.quarterly (s ++ ".NS") = p.quarterly (s ++ ".NS") →
      p'.history1y (s ++ ".NS") = p.history1y (s ++ ".NS") →
      main s p' = main s p) := by
  refine ⟨?_, ?_, ?_, ?_⟩
  · intro e he
    simp only [main, he, error_message_shape]
  · intro r hr
    simp only [main, hr]
  · rw [main]
    cases h : mainPipeline p (s ++ ".NS") with
    | error e => simp
    | ok r => simp
  · intro p' h1 h2 h3 h4
    rw [main, main, mainPipeline, mainPipeline, get_stock_info, get_stock_info,
      get_quarterly_financials, get_quarterly_financials, h1, h2, h3, h4]

lemma calc_map_fst (hist : List DayRow) :
    (calculate_quarterly_averages hist).map Prod.fst =
      ((hist.map (fun r => quarterKey r.year r.month)).dedup).insertionSort (· ≤ ·) := by
  unfold calculate_quarterly_averages
  rw [List.map_map]
  simp [Function.comp_def]

/-- C7: the Quarterly Averager outputs one row per calendar quarter present
in the daily history, in strictly increasing (chronological) order; a
quarter appears exactly when some row of the history falls in it (quarters
with zero rows are absent); and each output row carries the arithmetic mean
of the quarter's `High` values and of its `Low` values (stated
multiplicatively: mean × group size = group sum). -/
theorem quarterly_averages_spec (hist : List DayRow) :
    List.Pairwise (· < ·) ((calculate_quarterly_averages hist).map Prod.fst) ∧
    (∀ k, k ∈ (calculate_quarterly_averages hist).map Prod.fst ↔
      ∃ r ∈ hist, quarterKey r.year r.month = k) ∧
    (∀ k h l, (k, h, l) ∈ calculate_quarterly_averages hist →
      hist.filter (fun r => quarterKey r.year r.month == k) ≠ [] ∧
      h * ((hist.filter (fun r => quarterKey r.year r.month == k)).length : ℚ) =
        ((hist.filter (fun r => quarterKey r.year r.month == k)).map DayRow.high).sum ∧
      l * ((hist.filter (fun r => quarterKey r.year r.month == k)).length : ℚ) =
        ((hist.filter (fun r => quarterKey r.year r.month == k)).map DayRow.low).sum) := by
  refine ⟨?_, ?_, ?_⟩
  · rw [calc_map_fst]
    have hs := List.sorted_insertionSort (· ≤ ·)
      ((hist.map (fun r => quarterKey r.year r.month)).dedup)
    have hn := (List.perm_insertionSort (· ≤ ·)
      ((hist.map (fun r => quarterKey r.year r.month)).dedup)).symm.nodup
      (List.nodup_dedup _)
    exact hs.lt_of_le hn
  · intro k
    rw [calc_map_fst,
      (List.perm_insertionSort (· ≤ ·) _).mem_iff, List.mem_dedup, List.mem_map]
  · intro k h l hmem
    unfold calculate_quarterly_averages at hmem
    obtain ⟨k', hk', heq⟩ := List.mem_map.mp hmem
    rw [Prod.mk.injEq, Prod.mk.injEq] at heq
    obtain ⟨hkk, hh, hl⟩ := heq
    rw [← hkk, ← hh, ← hl]
    have hk2 : k' ∈ hist.map (fun r => quarterKey r.year r.month) :=
      List.mem_dedup.mp ((List.perm_insertionSort (· ≤ ·) _).mem_iff.mp hk')
    obtain ⟨r, hr, hrk⟩ := List.mem_map.mp hk2
    have hfil : r ∈ hist.filter (fun r => quarterKey r.year r.month == k') :=
      List.mem_filter.mpr ⟨hr, by simp [hrk]⟩
    have hne : hist.filter (fun r => quarterKey r.year r.month == k') ≠ [] :=
      List.ne_nil_of_mem hfil
    have hlen :
        (((hist.filter (fun r => quarterKey r.year r.month == k')).length : ℚ)) ≠ 0 := by
      exact_mod_cast List.length_pos.mpr hne |>.ne'
    exact ⟨hne, div_mul_cancel₀ _ hlen, div_mul_cancel₀ _ hlen⟩

/-- Synthetic daily history: two rows in 2024 Q1, one in 2024 Q2. -/
def quarterHist : List DayRow :=
  [⟨2024, 1, 20, 4⟩, ⟨2024, 2, 30, 6⟩, ⟨2024, 5, 10, 2⟩]

/-- C7 witness: on the synthetic history, Q1-2024 (key 8096) appears with
mean High 25 and mean Low 5 over its two rows. -/
theorem quarterly_averages_spec_witness :
    quarterHist.filter (fun r => quarterKey r.year r.month == 8096) ≠ [] ∧
    (25 : ℚ) * ((quarterHist.filter (fun r => quarterKey r.year r.month == 8096)).length : ℚ) =
      ((quarterHist.filter (fun r => quarterKey r.year r.month == 8096)).map DayRow.high).sum ∧
    (5 : ℚ) * ((quarterHist.filter (fun r => quarterKey r.year r.month == 8096)).length : ℚ) =
      ((quarterHist.filter (fun r => quarterKey r.year r.month == 8096)).map DayRow.low).sum :=
  (quarterly_averages_spec quarterHist).2.2 8096 25 5 (by decide)

/-- C4 witness: a stub raising on the profile fetch yields exactly the error
pair with a null image. -/
theorem request_handler_error_path_witness :
    main "TCS"
      { info := fun _ => .error "HTTPError: 404",
        close1d := fun _ => .ok [],
        quarterly := fun _ => .ok [],
        history1y := fun _ => .ok [] } =
      ("Error fetching data for TCS.NS: HTTPError: 404", none) :=
  (request_handler_error_path "TCS" _).1 "HTTPError: 404" rfl

end

end FinAI
